import Mathlib

/-!
Shallow embedding of the event-relay pipeline of `src/script.py`
(classes `StateDB`, `RelayerService`, `EventProcessor`, `EventListener`).

External effects are made explicit:
* the state file's content is a `StateFile` value and a write outcome is a
  boolean (`ioOk`: the `IOError` branch of `_save_state` fires when false);
* the relayer HTTP call's outcome is a `TransportResult`;
* the chain client's answers (`get_latest_block_number`, the log fetch of
  `create_filter` / `get_all_entries`) are inputs of one poll cycle.

Block numbers are Python integers, so they are modelled as `Int`.
-/

namespace BridgeListener

/-- A JSON value, as produced by Python's `json.load`. -/
inductive JsonValue where
  | str (s : String)
  | num (n : Int)
  | boolean (b : Bool)
  | null
  | arr (elems : List JsonValue)
  | obj (fields : List (String × JsonValue))

/-- The possible states of the persisted state file as seen by
`StateDB._load_state`: missing (`FileNotFoundError`), present but not
parseable (`json.JSONDecodeError`), or parseable to some JSON value. -/
inductive StateFile where
  | absent
  | invalid
  | valid (v : JsonValue)

/-- `StateDB._load_state` (src/script.py:88-101): returns the parsed JSON on
success and falls back to the empty dict `{}` both when the file is missing
and when it cannot be decoded. No validation of the parsed value happens. -/
def loadState : StateFile → JsonValue
  | .absent => .obj []
  | .invalid => .obj []
  | .valid v => v

/-- Does `a` occur as a contiguous run at the front of `b`? (Python string
comparison, character lists.) -/
def charsStartWith : List Char → List Char → Bool
  | [], _ => true
  | _ :: _, [] => false
  | a :: as, b :: bs => a == b && charsStartWith as bs

/-- Does `a` occur as a contiguous run somewhere in `b`? -/
def charsContain (a : List Char) : List Char → Bool
  | [] => charsStartWith a []
  | b :: bs => charsStartWith a (b :: bs) || charsContain a bs

/-- Python's `v == sig` for a JSON value `v` and a string `sig`: only a
string with the same content is equal; values of any other type compare
unequal to a string. -/
def pyEqStr (v : JsonValue) (sig : String) : Bool :=
  match v with
  | .str s => s == sig
  | _ => false

/-- Python's `x in y` for a string `x` and an arbitrary JSON value `y`:
key membership for a dict, element equality for a list, substring test for a
string, and a `TypeError` (modelled as `.error ()`) for numbers, booleans and
`None`, which do not support the `in` operator. -/
def pyMem (sig : String) : JsonValue → Except Unit Bool
  | .obj fields => .ok (fields.any (fun kv => kv.1 == sig))
  | .arr elems => .ok (elems.any (fun v => pyEqStr v sig))
  | .str s => .ok (charsContain sig.data s.data)
  | .num _ => .error ()
  | .boolean _ => .error ()
  | .null => .error ()

/-- `StateDB.__init__` followed by `is_event_processed` on the raw loaded
value: `processed_events` is whatever `_load_state` returned, and the lookup
is Python's `in` against it (src/script.py:85, 113-123). -/
def loadThenCheck (content : StateFile) (sig : String) : Except Unit Bool :=
  pyMem sig (loadState content)

/-- The payload built by `EventProcessor.process_event`
(src/script.py:280-286). -/
structure ProcessedData where
  source_transaction_hash : String
  sender : String
  recipient : String
  amount : Nat
  destination_chain_id : Nat
  deriving Repr, DecidableEq

/-- One entry of `StateDB.processed_events`: the per-event record stored by
`mark_event_as_processed` (src/script.py:133-136). -/
structure EventRecord where
  data : ProcessedData
  processed_at : Nat
  deriving Repr, DecidableEq

/-- An insertion-ordered string-keyed dictionary, as a Python `dict`. -/
abbrev EventDict := List (String × EventRecord)

/-- Python dict assignment `d[k] = v`: overwrite in place when the key is
present, append otherwise. -/
def dictInsert (k : String) (v : EventRecord) : EventDict → EventDict
  | [] => [(k, v)]
  | kv :: rest =>
      if kv.1 == k then (k, v) :: rest else kv :: dictInsert k v rest

/-- The `StateDB` instance after startup: its in-memory dict and the content
of the persisted state file. The well-formed-startup case (the loaded value
is a dict of records) is the one every later operation of the source runs
in, so `processed_events` is typed as an `EventDict` here; `loadState` above
keeps the untyped behaviour for the startup claims. -/
structure StateDB where
  processed_events : EventDict
  persisted : Option EventDict
  deriving Repr, DecidableEq

/-- `StateDB.is_event_processed` (src/script.py:113-123): key membership in
the in-memory dict. -/
def is_event_processed (sig : String) (db : StateDB) : Bool :=
  db.processed_events.any (fun kv => kv.1 == sig)

/-- `StateDB._save_state` (src/script.py:103-111): on a successful write the
file now holds the in-memory dict; an `IOError` is caught and only logged,
leaving the file as it was. -/
def saveState (ioOk : Bool) (db : StateDB) : StateDB :=
  if ioOk then { db with persisted := some db.processed_events } else db

/-- `StateDB.mark_event_as_processed` (src/script.py:125-138): insert the
record into the in-memory dict, then `_save_state`. There is no rollback of
the insert when the save fails. -/
def mark_event_as_processed (ioOk : Bool) (now : Nat) (sig : String)
    (data : ProcessedData) (db : StateDB) : StateDB :=
  saveState ioOk
    { db with processed_events :=
        dictInsert sig { data := data, processed_at := now } db.processed_events }

/-- The HTTP response the relayer endpoint actually produced: its status
code, and whether its body parses as JSON (`response.json()` is evaluated
inside the success-path log call and raises
`requests.exceptions.JSONDecodeError`, a `RequestException`, otherwise). -/
structure HttpResponse where
  status : Int
  bodyIsJson : Bool
  deriving Repr, DecidableEq

/-- Outcome of the `requests.post` call in `RelayerService.relay_transaction`:
either a response came back, or a transport-level `RequestException`
(connection error, timeout, ...) was raised. -/
inductive TransportResult where
  | response (r : HttpResponse)
  | transportError
  deriving Repr, DecidableEq

/-- `Response.raise_for_status` of the requests library raises `HTTPError`
exactly for client-error (4xx) and server-error (5xx) status codes. -/
def raiseForStatusRaises (status : Int) : Bool :=
  (400 ≤ status && status < 500) || (500 ≤ status && status < 600)

/-- `RelayerService.relay_transaction` (src/script.py:219-242): POST the
payload; `raise_for_status` turns 4xx/5xx into a caught exception, then the
success log line evaluates `response.json()`, whose decode failure is also a
caught `RequestException`; every caught exception yields `False`, reaching
the end of the `try` block yields `True`. -/
def relay_transaction (t : TransportResult) : Bool :=
  match t with
  | .transportError => false
  | .response r =>
      if raiseForStatusRaises r.status then false
      else r.bodyIsJson

/-- A decoded `TokensLocked` log entry as handed to
`EventProcessor.process_event` (the `LogReceipt` of src/script.py:259). -/
structure LogEntry where
  transactionHash : String
  logIndex : Nat
  sender : String
  recipient : String
  amount : Nat
  destinationChainId : Nat
  deriving Repr, DecidableEq

/-- The dedup key built at src/script.py:268-270:
`f"{tx_hash}-{log_index}"`. -/
def eventSignature (e : LogEntry) : String :=
  e.transactionHash ++ "-" ++ toString e.logIndex

/-- The payload formatting step of `process_event` (src/script.py:279-286). -/
def formatEvent (e : LogEntry) : ProcessedData :=
  { source_transaction_hash := e.transactionHash
    sender := e.sender
    recipient := e.recipient
    amount := e.amount
    destination_chain_id := e.destinationChainId }

/-- The external world one run interacts with: the relayer endpoint's
response for each event's payload, whether writing the state file succeeds,
and the wall clock used for `processed_at` timestamps. -/
structure World where
  response : LogEntry → TransportResult
  ioOk : Bool
  now : Nat

/-- Result of one `process_event` call: the updated `StateDB` plus how many
relayer dispatch calls and how many ledger commits
(`mark_event_as_processed` calls) the call made. -/
structure ProcessResult where
  db : StateDB
  dispatchCalls : Nat
  commits : Nat
  deriving Repr, DecidableEq

/-- `EventProcessor.process_event` (src/script.py:259-293): skip when the
signature is already in the ledger; otherwise format the payload, call the
relayer once, and commit on success. A failed dispatch is only logged. -/
def process_event (w : World) (e : LogEntry) (db : StateDB) : ProcessResult :=
  let sig := eventSignature e
  if is_event_processed sig db then
    { db := db, dispatchCalls := 0, commits := 0 }
  else if relay_transaction (w.response e) then
    { db := mark_event_as_processed w.ioOk w.now sig (formatEvent e) db
      dispatchCalls := 1, commits := 1 }
  else
    { db := db, dispatchCalls := 1, commits := 0 }

/-- Result of running the per-event loop of `EventListener.start`
(src/script.py:338-339) over a fetched batch: the final `StateDB`, the
total dispatch and commit counts, and the number of loop iterations that ran
to completion. -/
structure BatchResult where
  db : StateDB
  dispatchCalls : Nat
  commits : Nat
  iterations : Nat
  deriving Repr, DecidableEq

/-- The `for event in events: self.processor.process_event(event)` loop of
`EventListener.start`. Every exception path inside `process_event` is caught
in the source (the relayer catches `RequestException`, `_save_state` catches
`IOError`), so the loop is a total fold. -/
def processBatch (w : World) (events : List LogEntry) (db : StateDB) :
    BatchResult :=
  match events with
  | [] => { db := db, dispatchCalls := 0, commits := 0, iterations := 0 }
  | e :: rest =>
      let r := process_event w e db
      let b := processBatch w rest r.db
      { db := b.db
        dispatchCalls := r.dispatchCalls + b.dispatchCalls
        commits := r.commits + b.commits
        iterations := b.iterations + 1 }

/-- The mutable listener state of `EventListener` (src/script.py:299-305):
the scan cursor plus the two configuration constants. -/
structure EventListener where
  current_block : Int
  poll_interval : Nat
  reorg_confirmation_depth : Int
  deriving Repr, DecidableEq

/-- What the chain client does during one poll cycle: the answer of
`get_latest_block_number` (`none` when it fails), and the outcome of the
log fetch (`create_filter` / `get_all_entries`) should the cycle get that
far — either the entries, or an exception reaching the `except` clause. -/
inductive FetchResult where
  | ok (events : List LogEntry)
  | err
  deriving Repr, DecidableEq

/-- Input of one iteration of the `while True` loop. -/
structure CycleInput where
  latest_block : Option Int
  fetch : FetchResult
  world : World

/-- Observable trace of one poll cycle: the inclusive block range scanned
(if any), the total seconds slept, and whether the generic `except` clause
at the loop boundary fired. -/
structure CycleReport where
  scanned : Option (Int × Int)
  sleepSeconds : Nat
  caughtError : Bool
  deriving Repr, DecidableEq

/-- One iteration of the `while True` loop of `EventListener.start`
(src/script.py:312-351). Branches, in source order:
height query failed → sleep and retry; cursor beyond
`target_block = latest - reorg_confirmation_depth` → wait; fetch raised →
caught at the loop boundary, extended backoff (`poll_interval * 2`) plus the
end-of-loop sleep, cursor untouched; otherwise process the batch and set
`current_block = target_block + 1`. -/
def pollCycle (inp : CycleInput) (L : EventListener) (db : StateDB) :
    EventListener × StateDB × CycleReport :=
  match inp.latest_block with
  | none =>
      (L, db, { scanned := none, sleepSeconds := L.poll_interval,
                caughtError := false })
  | some latest =>
      let target := latest - L.reorg_confirmation_depth
      if L.current_block > target then
        (L, db, { scanned := none, sleepSeconds := L.poll_interval,
                  caughtError := false })
      else
        match inp.fetch with
        | .err =>
            (L, db, { scanned := none,
                      sleepSeconds := L.poll_interval * 2 + L.poll_interval,
                      caughtError := true })
        | .ok events =>
            let b := processBatch inp.world events db
            ({ L with current_block := target + 1 }, b.db,
             { scanned := some (L.current_block, target),
               sleepSeconds := L.poll_interval, caughtError := false })

/-- A run of successive poll cycles. -/
def runCycles (inps : List CycleInput) (L : EventListener) (db : StateDB) :
    EventListener × StateDB :=
  match inps with
  | [] => (L, db)
  | inp :: rest =>
      let s := pollCycle inp L db
      runCycles rest s.1 s.2.1

/-! ### Helper lemmas -/

theorem dictInsert_any_key (k sig : String) (v : EventRecord) (l : EventDict) :
    (dictInsert k v l).any (fun kv => kv.1 == sig) =
      (k == sig || l.any (fun kv => kv.1 == sig)) := by
  induction l with
  | nil => simp [dictInsert]
  | cons kv rest ih =>
      obtain ⟨k1, v1⟩ := kv
      simp only [dictInsert]
      by_cases hk : k1 == k
      · have hk1 : k1 = k := by simpa using hk
        subst hk1
        simp only [if_pos hk, List.any_cons]
        cases h1 : (k1 == sig) <;> simp
      · simp only [if_neg hk, List.any_cons, ih]
        cases h1 : (k1 == sig) <;> cases h2 : (k == sig) <;> simp

theorem processed_events_saveState (ioOk : Bool) (db : StateDB) :
    (saveState ioOk db).processed_events = db.processed_events := by
  cases ioOk <;> rfl

theorem is_event_processed_mark (ioOk : Bool) (now : Nat) (k : String)
    (d : ProcessedData) (db : StateDB) (sig : String) :
    is_event_processed sig (mark_event_as_processed ioOk now k d db) =
      (k == sig || is_event_processed sig db) := by
  unfold mark_event_as_processed is_event_processed
  rw [processed_events_saveState]
  exact dictInsert_any_key k sig _ _

theorem process_event_membership (w : World) (e : LogEntry) (db : StateDB)
    (sig : String) :
    is_event_processed sig (process_event w e db).db =
      (is_event_processed sig db ||
        (eventSignature e == sig && relay_transaction (w.response e))) := by
  unfold process_event
  by_cases hp : is_event_processed (eventSignature e) db
  · simp only [if_pos hp]
    by_cases heq : eventSignature e == sig
    · have : eventSignature e = sig := by simpa using heq
      subst this
      simp [hp]
    · simp [heq]
  · simp only [Bool.not_eq_true] at hp
    simp only [hp, Bool.false_eq_true, if_false]
    by_cases hr : relay_transaction (w.response e)
    · simp only [hr, if_true, Bool.and_true, is_event_processed_mark]
      cases h1 : (eventSignature e == sig) <;> simp
    · simp only [Bool.not_eq_true] at hr
      simp [hr]

/-! ### Claim theorems -/

/-- C5 counterexample: a persisted store that exists but cannot be parsed
(`StateFile.invalid`) makes `_load_state` silently return the empty state,
exactly the same result as an absent store — contradicting the claim that
only an absent store yields an empty ledger. -/
theorem loadState_invalid_counterexample :
    loadState .invalid = .obj [] ∧ loadState .invalid = loadState .absent :=
  ⟨rfl, rfl⟩

/-- C5 (amended): `_load_state` catches `json.JSONDecodeError`, logs, and
continues with an empty state, so an invalid persisted store is treated
exactly like an absent one (cold start); only a parseable store yields a
non-fallback value, returned as parsed. -/
theorem loadState_fallback_behaviour :
    loadState .absent = .obj [] ∧ loadState .invalid = .obj [] ∧
      ∀ v, loadState (.valid v) = v :=
  ⟨rfl, rfl, fun _ => rfl⟩

/-- C10: `_load_state` yields the empty dict exactly on an absent file, an
unparseable file, or a file containing literally `{}`; any parseable JSON
value is returned unvalidated — and `is_event_processed` then runs Python's
`in` against that raw value, so a stored list is searched for the signature
as an element, and a stored number makes the lookup a `TypeError`. -/
theorem loadState_unvalidated :
    (∀ v, loadState (.valid v) = v) ∧
    (∀ c, loadState c = .obj [] ↔
      (c = .absent ∨ c = .invalid ∨ c = .valid (.obj []))) ∧
    loadThenCheck (.valid (.num 5)) "x" = .error () ∧
    loadThenCheck (.valid (.arr [.str "x", .num 3])) "x" = .ok true ∧
    loadThenCheck (.valid (.arr [.num 3])) "x" = .ok false := by
  refine ⟨fun _ => rfl, fun c => ?_, rfl, by simp [loadThenCheck, loadState, pyMem, pyEqStr], by simp [loadThenCheck, loadState, pyMem, pyEqStr]⟩
  constructor
  · intro h
    cases c with
    | absent => exact Or.inl rfl
    | invalid => exact Or.inr (Or.inl rfl)
    | valid v => exact Or.inr (Or.inr (by rw [loadState] at h; rw [h]))
  · rintro (rfl | rfl | rfl) <;> rfl

/-- C4 counterexample: committing an event while the state-file write fails
leaves the signature in the in-memory dict (`is_event_processed` returns
`true`) while the persisted store still does not contain it — the in-memory
insert is not rolled back and memory diverges from durable state. -/
theorem mark_event_rollback_counterexample :
    is_event_processed "0xabc-2"
      (mark_event_as_processed false 0 "0xabc-2"
        { source_transaction_hash := "0xabc", sender := "a", recipient := "b",
          amount := 1, destination_chain_id := 2 }
        { processed_events := [], persisted := none }) = true ∧
    (mark_event_as_processed false 0 "0xabc-2"
        { source_transaction_hash := "0xabc", sender := "a", recipient := "b",
          amount := 1, destination_chain_id := 2 }
        { processed_events := [], persisted := none }).persisted = none := by
  constructor <;> rfl

/-- C4 (amended): `mark_event_as_processed` never raises — a storage I/O
error inside `_save_state` is caught and only logged. On such a failure the
persisted store is left untouched but the in-memory insert is NOT rolled
back, so `is_event_processed` subsequently answers `true` for a signature
that was never durably committed; only on a successful save do memory and
store agree. -/
theorem mark_event_no_rollback (ioOk : Bool) (now : Nat) (sig : String)
    (d : ProcessedData) (db : StateDB) :
    (mark_event_as_processed false now sig d db).persisted = db.persisted ∧
    is_event_processed sig (mark_event_as_processed ioOk now sig d db) = true ∧
    (mark_event_as_processed true now sig d db).persisted =
      some (mark_event_as_processed true now sig d db).processed_events := by
  refine ⟨rfl, ?_, rfl⟩
  rw [is_event_processed_mark]
  simp

/-- C8 counterexample: `raise_for_status` only raises for 4xx/5xx, so an
HTTP 304 response (not a 2xx) whose body is JSON sails through and
`relay_transaction` returns `True`; conversely a 204 response (a 2xx) whose
empty body is not JSON makes the logged `response.json()` call raise a
caught `RequestException`, and the call returns `False`. -/
theorem relay_transaction_counterexample :
    relay_transaction (.response { status := 304, bodyIsJson := true }) = true ∧
    relay_transaction (.response { status := 204, bodyIsJson := false }) = false := by
  constructor <;> rfl

/-- C8 (amended): `relay_transaction` returns success exactly when a
response came back whose status is outside 400..599 and whose body parses
as JSON. So every 2xx response with a JSON body is a success, every
4xx/5xx response and every transport error is a failure — but a 3xx
response with a JSON body is also classified as success, and a 2xx
response whose body is not valid JSON is classified as failure. -/
theorem relay_transaction_classification (r : HttpResponse) :
    (200 ≤ r.status → r.status < 300 → r.bodyIsJson = true →
      relay_transaction (.response r) = true) ∧
    (400 ≤ r.status → r.status < 600 →
      relay_transaction (.response r) = false) ∧
    relay_transaction .transportError = false ∧
    (r.bodyIsJson = false → relay_transaction (.response r) = false) := by
  unfold relay_transaction raiseForStatusRaises
  refine ⟨fun h1 h2 hb => ?_, fun h1 h2 => ?_, rfl, fun hb => ?_⟩
  · have : ¬ ((400 ≤ r.status ∧ r.status < 500) ∨
        (500 ≤ r.status ∧ r.status < 600)) := by omega
    simp only [Bool.or_eq_true, Bool.and_eq_true, decide_eq_true_eq]
    rw [if_neg]
    · exact hb
    · simpa using this
  · have : (400 ≤ r.status ∧ r.status < 500) ∨
        (500 ≤ r.status ∧ r.status < 600) := by omega
    simp only [Bool.or_eq_true, Bool.and_eq_true, decide_eq_true_eq]
    rw [if_pos]
    simpa using this
  · simp only [hb]
    split <;> rfl

/-- C8 witness: the amended classification evaluated at concrete
responses — 250 with a JSON body succeeds, 404 fails, a transport error
fails, and 204 with a non-JSON body fails. -/
theorem relay_transaction_classification_witness :
    relay_transaction (.response { status := 250, bodyIsJson := true }) = true ∧
    relay_transaction (.response { status := 404, bodyIsJson := true }) = false ∧
    relay_transaction .transportError = false ∧
    relay_transaction (.response { status := 204, bodyIsJson := false }) = false :=
  ⟨(relay_transaction_classification { status := 250, bodyIsJson := true }).1
      (by norm_num) (by norm_num) rfl,
   (relay_transaction_classification { status := 404, bodyIsJson := true }).2.1
      (by norm_num) (by norm_num),
   (relay_transaction_classification { status := 404, bodyIsJson := true }).2.2.1,
   (relay_transaction_classification { status := 204, bodyIsJson := false }).2.2.2 rfl⟩

/-- C1 counterexample: when the dispatch for an event fails (here: a
transport error), `process_event` leaves the ledger untouched, so a second
call on the same event dispatches again — two calls on a fresh event make
two dispatch calls and zero ledger commits, not one of each. -/
theorem process_event_twice_counterexample :
    (let w : World :=
      { response := fun _ => .transportError, ioOk := true, now := 0 }
     let e : LogEntry :=
      { transactionHash := "0xabc", logIndex := 2, sender := "a",
        recipient := "b", amount := 1, destinationChainId := 2 }
     let db : StateDB := { processed_events := [], persisted := none }
     let r1 := process_event w e db
     let r2 := process_event w e r1.db
     r1.dispatchCalls + r2.dispatchCalls = 2 ∧ r1.commits + r2.commits = 0 ∧
       ¬(r1.dispatchCalls + r2.dispatchCalls = 1 ∧
         r1.commits + r2.commits = 1)) := by
  exact ⟨rfl, rfl, by decide⟩

/-- C1 (amended): on an event not yet in the ledger whose dispatch
succeeds, running `process_event` twice makes exactly one dispatch call and
exactly one ledger commit, and the second call changes nothing; moreover,
whenever the ledger already contains an event's signature, `process_event`
makes no dispatch call and no commit and leaves the state unchanged. The
unconditional form of the claim fails when dispatch fails: the event is
left uncommitted and a repeat call dispatches again. -/
theorem process_event_idempotent (w : World) (e : LogEntry) (db : StateDB)
    (hfresh : is_event_processed (eventSignature e) db = false)
    (hok : relay_transaction (w.response e) = true) :
    ((process_event w e db).dispatchCalls +
        (process_event w e (process_event w e db).db).dispatchCalls = 1 ∧
      (process_event w e db).commits +
        (process_event w e (process_event w e db).db).commits = 1 ∧
      process_event w e (process_event w e db).db =
        { db := (process_event w e db).db, dispatchCalls := 0, commits := 0 }) ∧
    ∀ (w2 : World) (e2 : LogEntry) (db2 : StateDB),
      is_event_processed (eventSignature e2) db2 = true →
        process_event w2 e2 db2 = { db := db2, dispatchCalls := 0, commits := 0 } := by
  have hskip : ∀ (w2 : World) (e2 : LogEntry) (db2 : StateDB),
      is_event_processed (eventSignature e2) db2 = true →
        process_event w2 e2 db2 = { db := db2, dispatchCalls := 0, commits := 0 } := by
    intro w2 e2 db2 h2
    unfold process_event
    rw [if_pos h2]
  have h1 : process_event w e db =
      { db := mark_event_as_processed w.ioOk w.now (eventSignature e)
          (formatEvent e) db,
        dispatchCalls := 1, commits := 1 } := by
    unfold process_event
    rw [if_neg (by simp [hfresh]), if_pos hok]
  have h2 : is_event_processed (eventSignature e) (process_event w e db).db = true := by
    rw [h1]
    simp [is_event_processed_mark]
  have h3 := hskip w e (process_event w e db).db h2
  refine ⟨⟨?_, ?_, h3⟩, hskip⟩
  · rw [h3, h1]
    rfl
  · rw [h3, h1]
    rfl


/-- C1 witness: the amended idempotency at a concrete fresh event with an
always-succeeding dispatcher. -/
theorem process_event_idempotent_witness :
    (let w : World :=
      { response := fun _ => .response { status := 200, bodyIsJson := true },
        ioOk := true, now := 0 }
     let e : LogEntry :=
      { transactionHash := "0xabc", logIndex := 2, sender := "a",
        recipient := "b", amount := 1, destinationChainId := 2 }
     let db : StateDB := { processed_events := [], persisted := none }
     let r1 := process_event w e db
     let r2 := process_event w e r1.db
     r1.dispatchCalls + r2.dispatchCalls = 1 ∧ r1.commits + r2.commits = 1) := by
  have h := process_event_idempotent
    { response := fun _ => .response { status := 200, bodyIsJson := true },
      ioOk := true, now := 0 }
    { transactionHash := "0xabc", logIndex := 2, sender := "a",
      recipient := "b", amount := 1, destinationChainId := 2 }
    { processed_events := [], persisted := none }
    rfl rfl
  exact ⟨h.1.1, h.1.2.1⟩

/-- C7: across the per-event loop over a fetched batch, the final ledger
contains a signature precisely when it was already there or some event of
the batch carries it and its dispatch succeeded — so exactly the
successfully dispatched events are newly committed, failed events stay
uncommitted — and the loop runs one iteration per event to completion (all
exception paths inside `process_event` are caught in the source, so the
fold is total: no exception escapes the loop). -/
theorem processBatch_partial_failure (w : World) (events : List LogEntry)
    (db : StateDB) (sig : String) :
    (is_event_processed sig (processBatch w events db).db =
      (is_event_processed sig db ||
        events.any (fun e =>
          eventSignature e == sig && relay_transaction (w.response e)))) ∧
    (processBatch w events db).iterations = events.length := by
  induction events generalizing db with
  | nil => simp [processBatch]
  | cons e rest ih =>
      simp only [processBatch, List.any_cons, List.length_cons]
      refine ⟨?_, by simp [(ih (process_event w e db).db).2]⟩
      rw [(ih (process_event w e db).db).1, process_event_membership]
      cases h1 : is_event_processed sig db <;>
        cases h2 : (eventSignature e == sig && relay_transaction (w.response e)) <;>
        simp

/-- C2: whatever one poll cycle does, any block range it requests from the
chain client has an upper bound of at most the reported chain height minus
the configured confirmation depth (`target_block = latest - depth` at
src/script.py:321). -/
theorem scanner_window_safety (inp : CycleInput) (L : EventListener)
    (db : StateDB) (h lo hi : Int)
    (hlat : inp.latest_block = some h)
    (hscan : (pollCycle inp L db).2.2.scanned = some (lo, hi)) :
    hi ≤ h - L.reorg_confirmation_depth := by
  obtain ⟨lb, f, wd⟩ := inp
  simp only at hlat
  subst hlat
  simp only [pollCycle] at hscan
  by_cases hc : L.current_block > h - L.reorg_confirmation_depth
  · rw [if_pos hc] at hscan
    simp at hscan
  · rw [if_neg hc] at hscan
    cases f with
    | err => simp at hscan
    | ok events =>
        simp only [Option.some.injEq, Prod.mk.injEq] at hscan
        omega

/-- C2 witness: the window-safety bound at a concrete cycle — height 100,
depth 5, cursor 80 — whose scanned range is `[80, 95]`, with `95 ≤ 100 - 5`. -/
theorem scanner_window_safety_witness :
    (95 : Int) ≤ 100 - (5 : Int) :=
  scanner_window_safety
    { latest_block := some 100, fetch := .ok [],
      world := { response := fun _ => .transportError, ioOk := true, now := 0 } }
    { current_block := 80, poll_interval := 15, reorg_confirmation_depth := 5 }
    { processed_events := [], persisted := none }
    100 80 95 rfl rfl

/-- One poll cycle never moves the scan cursor backwards: it either leaves
`current_block` unchanged or sets it to `target_block + 1`, which is at
least `current_block + 1` in the only branch that assigns it. -/
theorem pollCycle_cursor_le (inp : CycleInput) (L : EventListener)
    (db : StateDB) :
    L.current_block ≤ (pollCycle inp L db).1.current_block := by
  obtain ⟨lb, f, wd⟩ := inp
  cases lb with
  | none => exact le_refl _
  | some latest =>
      simp only [pollCycle]
      by_cases hc : L.current_block > latest - L.reorg_confirmation_depth
      · rw [if_pos hc]
      · rw [if_neg hc]
        cases f with
        | err => exact le_refl _
        | ok events =>
            show L.current_block ≤ latest - L.reorg_confirmation_depth + 1
            omega

/-- C3: across any sequence of poll cycles, the scan cursor
(`EventListener.current_block`) never decreases — each cycle either leaves
it alone (height unavailable, nothing confirmed yet, or a fetch error) or
advances it to `target_block + 1` past its current value. -/
theorem cursor_monotone (inps : List CycleInput) (L : EventListener)
    (db : StateDB) :
    L.current_block ≤ (runCycles inps L db).1.current_block := by
  induction inps generalizing L db with
  | nil => simp [runCycles]
  | cons inp rest ih =>
      calc L.current_block
          ≤ (pollCycle inp L db).1.current_block := pollCycle_cursor_le inp L db
        _ ≤ (runCycles rest (pollCycle inp L db).1
              (pollCycle inp L db).2.1).1.current_block := ih _ _
        _ = (runCycles (inp :: rest) L db).1.current_block := rfl

/-- C6: in a cycle that obtained height `h`, with
`safe = h - reorg_confirmation_depth`: if the cursor exceeds `safe` the
cycle scans nothing and changes nothing; otherwise (fetch succeeding) it
scans exactly the inclusive range `[current_block, safe]` and sets the
cursor to `safe + 1`, for every batch and every dispatch/persistence
outcome. Concretely, height 100, depth 5, cursor 80 scans `[80, 95]` and
the cursor becomes 96. -/
theorem window_computation (h : Int) (L : EventListener) (db : StateDB)
    (w : World) :
    (L.current_block > h - L.reorg_confirmation_depth →
      ∀ f : FetchResult,
        pollCycle { latest_block := some h, fetch := f, world := w } L db =
          (L, db, { scanned := none, sleepSeconds := L.poll_interval,
                    caughtError := false })) ∧
    (L.current_block ≤ h - L.reorg_confirmation_depth →
      ∀ events : List LogEntry,
        (pollCycle { latest_block := some h, fetch := .ok events, world := w }
            L db).2.2.scanned =
          some (L.current_block, h - L.reorg_confirmation_depth) ∧
        (pollCycle { latest_block := some h, fetch := .ok events, world := w }
            L db).1.current_block =
          h - L.reorg_confirmation_depth + 1) ∧
    ((pollCycle { latest_block := some 100, fetch := .ok [], world := w }
        { current_block := 80, poll_interval := 15,
          reorg_confirmation_depth := 5 } db).2.2.scanned = some (80, 95) ∧
     (pollCycle { latest_block := some 100, fetch := .ok [], world := w }
        { current_block := 80, poll_interval := 15,
          reorg_confirmation_depth := 5 } db).1.current_block = 96) := by
  refine ⟨fun hc f => ?_, fun hc events => ?_, ?_, ?_⟩
  · simp only [pollCycle]
    rw [if_pos hc]
  · simp only [pollCycle]
    rw [if_neg (not_lt.mpr hc)]
    exact ⟨rfl, rfl⟩
  · rfl
  · rfl

/-- C6 witness: the window computation applied at height 100, depth 5,
cursor 80 — both through the general branch (hypothesis `80 ≤ 95`
discharged) and as the concrete scenario. -/
theorem window_computation_witness :
    (pollCycle
        { latest_block := some 100, fetch := .ok [],
          world := { response := fun _ => .transportError, ioOk := true,
                     now := 0 } }
        { current_block := 80, poll_interval := 15,
          reorg_confirmation_depth := 5 }
        { processed_events := [], persisted := none }).2.2.scanned =
      some (80, 95) ∧
    (pollCycle
        { latest_block := some 100, fetch := .ok [],
          world := { response := fun _ => .transportError, ioOk := true,
                     now := 0 } }
        { current_block := 80, poll_interval := 15,
          reorg_confirmation_depth := 5 }
        { processed_events := [], persisted := none }).1.current_block = 96 := by
  have h := (window_computation 100
    { current_block := 80, poll_interval := 15, reorg_confirmation_depth := 5 }
    { processed_events := [], persisted := none }
    { response := fun _ => .transportError, ioOk := true, now := 0 }).2.1
    (by norm_num) []
  exact ⟨h.1, by rw [h.2]; norm_num⟩

/-- C9: when the log fetch for a computed range raises, the exception is
caught by the `except` clause at the loop boundary (`caughtError`), the
cycle sleeps the extended backoff (`poll_interval * 2` plus the end-of-loop
sleep) instead of the normal interval, and neither the cursor nor the
ledger is touched — so the next cycle at the same reported height computes
exactly the same range `[current_block, h - depth]` again. -/
theorem fetch_error_retry (h : Int) (L : EventListener) (db : StateDB)
    (w : World) (events : List LogEntry)
    (hc : L.current_block ≤ h - L.reorg_confirmation_depth) :
    pollCycle { latest_block := some h, fetch := .err, world := w } L db =
      (L, db, { scanned := none,
                sleepSeconds := L.poll_interval * 2 + L.poll_interval,
                caughtError := true }) ∧
    (pollCycle { latest_block := some h, fetch := .ok events, world := w }
        L db).2.2.scanned =
      some (L.current_block, h - L.reorg_confirmation_depth) := by
  constructor
  · simp only [pollCycle]
    rw [if_neg (not_lt.mpr hc)]
  · simp only [pollCycle]
    rw [if_neg (not_lt.mpr hc)]

/-- C9 witness: a fetch failure at height 100, depth 5, cursor 80 leaves
the listener at cursor 80 with the error caught and a 45-second sleep
(3 × the 15-second interval), and the retried cycle scans `[80, 95]`. -/
theorem fetch_error_retry_witness :
    pollCycle
        { latest_block := some 100, fetch := .err,
          world := { response := fun _ => .transportError, ioOk := true,
                     now := 0 } }
        { current_block := 80, poll_interval := 15,
          reorg_confirmation_depth := 5 }
        { processed_events := [], persisted := none } =
      ({ current_block := 80, poll_interval := 15,
         reorg_confirmation_depth := 5 },
       { processed_events := [], persisted := none },
       { scanned := none, sleepSeconds := 15 * 2 + 15,
         caughtError := true }) ∧
    (pollCycle
        { latest_block := some 100, fetch := .ok [],
          world := { response := fun _ => .transportError, ioOk := true,
                     now := 0 } }
        { current_block := 80, poll_interval := 15,
          reorg_confirmation_depth := 5 }
        { processed_events := [], persisted := none }).2.2.scanned =
      some (80, 95) :=
  fetch_error_retry 100
    { current_block := 80, poll_interval := 15, reorg_confirmation_depth := 5 }
    { processed_events := [], persisted := none }
    { response := fun _ => .transportError, ioOk := true, now := 0 }
    [] (by norm_num)

end BridgeListener
